import Mathlib

/-!
Verification of `windy-notifier` (BelCorentin/windy-notifier).

Shallow embedding of the repository's core modules:
  * `windy_notifier/utils/converters.py` — unit conversion, wind-text parsing,
    Beaufort classification;
  * `windy_notifier/main.py` — the per-cycle check (threshold decision and
    last-check persistence);
  * `windy_notifier/scraper/weatherlink.py` — the layered extraction engine.

Numbers are modelled as rationals (the Python code uses floats, but every
claim under study is about the exact arithmetic of the conversion table,
the regex-driven parsing and branch structure, none of which depends on
binary rounding). Python exceptions are modelled with `Except Unit`.
-/

namespace WindyNotifier

/-! ## converters.py -/

/-- Python `\s` whitespace class (ASCII part): space, tab, newline,
carriage return, vertical tab, form feed. -/
def pySpace (c : Char) : Bool :=
  c = ' ' ∨ c = '\t' ∨ c = '\n' ∨ c = '\r' ∨ c = '\x0b' ∨ c = '\x0c'

/-- Python `str.lower` on a character list (ASCII case mapping). -/
def pyLower (cs : List Char) : List Char := cs.map Char.toLower

/-- Python `str.lower` on a string. -/
def pyStrLower (s : String) : String := String.mk (pyLower s.toList)

/-- The unit tokens `convert_to_knots` recognizes (it lowercases first). -/
def recognizedUnits : List String := ["knots", "kts", "kt", "km/h", "kph", "mph", "m/s"]

/-- `convert_to_knots(value, unit)` of converters.py: multiply by the fixed
factor of the recognized unit; unknown units log a warning and pass the
value through unchanged. -/
def convert_to_knots (value : ℚ) (unit : String) : ℚ :=
  let u := pyStrLower unit
  if u = "knots" ∨ u = "kts" ∨ u = "kt" then value
  else if u = "km/h" ∨ u = "kph" then value * (539957 / 1000000)
  else if u = "mph" then value * (868976 / 1000000)
  else if u = "m/s" then value * (194384 / 100000)
  else value

/-- Digits to a natural number (decimal). -/
def digitsToNat (ds : List Char) : ℕ := ds.foldl (fun n c => 10 * n + (c.toNat - 48)) 0

/-- Python `float` applied to the matched numeral (after `,` → `.`), on the
exact shape the numeral regex produces: digits, optionally a separator and
more digits. -/
def charsToRat (cs : List Char) : ℚ :=
  let intPart := cs.takeWhile Char.isDigit
  let rest := cs.dropWhile Char.isDigit
  match rest with
  | [] => (digitsToNat intPart : ℚ)
  | _ :: frac => (digitsToNat intPart : ℚ) + (digitsToNat frac : ℚ) / 10 ^ frac.length

/-- Match the numeral regex `\d+(?:[,.]\d+)?` at the head of `cs`.
`\d+` is greedy and, because a shorter run leaves a digit as the next
character (on which neither `[,.]` nor what follows the group can match),
the match is forced to take the maximal digit run; likewise the optional
fractional part is all-or-nothing. Returns (matched chars, rest). -/
def matchNumber (cs : List Char) : Option (List Char × List Char) :=
  let ds := cs.takeWhile Char.isDigit
  let rest := cs.dropWhile Char.isDigit
  if ds.isEmpty then none
  else
    match rest with
    | c :: rest2 =>
      if c = ',' ∨ c = '.' then
        let fs := rest2.takeWhile Char.isDigit
        if fs.isEmpty then some (ds, rest)
        else some (ds ++ c :: fs, rest2.dropWhile Char.isDigit)
      else some (ds, rest)
    | [] => some (ds, [])

/-- Case-insensitive literal match of `tok` at the head of `cs`
(`re.I` semantics): returns (matched raw chars, rest). -/
def matchToken : List Char → List Char → Option (List Char × List Char)
  | [], cs => some ([], cs)
  | _ :: _, [] => none
  | t :: ts, c :: cs =>
    if c.toLower = t.toLower then
      match matchToken ts cs with
      | some (m, rest) => some (c :: m, rest)
      | none => none
    else none

/-- The unit alternation `(mph|km/h|kts|knots)`, alternatives tried in
order, case-insensitively; returns (matched raw chars, rest). -/
def matchUnit (cs : List Char) : Option (List Char × List Char) :=
  match matchToken ['m', 'p', 'h'] cs with
  | some r => some r
  | none =>
    match matchToken ['k', 'm', '/', 'h'] cs with
    | some r => some r
    | none =>
      match matchToken ['k', 't', 's'] cs with
      | some r => some r
      | none => matchToken ['k', 'n', 'o', 't', 's'] cs

/-- `re.search` of the leading numeral group: the pattern starts with
`\d+`, so the leftmost match starts at the first digit of the text. -/
def firstNumber : List Char → Option (List Char × List Char)
  | [] => none
  | c :: cs => if c.isDigit then matchNumber (c :: cs) else firstNumber cs

/-- `re.search(r'(\d+(?:[,.]\d+)?)\s*(mph|km/h|kts|knots)?', text, re.I)`
followed by the group post-processing of `parse_wind_data`: the numeral with
`,` replaced by `.` converted to a number, and `group(2).lower()` or the
`"mph"` default when the optional unit group did not participate. -/
def searchNumberUnit (cs : List Char) : Option (ℚ × String) :=
  match firstNumber cs with
  | some (num, rest) =>
    match matchUnit (rest.dropWhile pySpace) with
    | some (u, _) => some (charsToRat num, String.mk (pyLower u))
    | none => some (charsToRat num, "mph")
  | none => none

/-- `parse_wind_data(wind_text)` of converters.py. The Python guard
`if not wind_text` (falsy string) is the emptiness test. -/
def parse_wind_data (wind_text : String) : Option (ℚ × String) :=
  if wind_text = "" then none
  else searchNumberUnit wind_text.toList

/-- The Beaufort table of `get_wind_description`: (lower, upper, text),
`none` standing for `float('inf')`. -/
def beaufort_scale : List (ℚ × Option ℚ × String) :=
  [(0, some 1, "Calm"), (1, some 3, "Light air"), (4, some 6, "Light breeze"),
   (7, some 10, "Gentle breeze"), (11, some 16, "Moderate breeze"),
   (17, some 21, "Fresh breeze"), (22, some 27, "Strong breeze"),
   (28, some 33, "Near gale"), (34, some 40, "Gale"),
   (41, some 47, "Strong gale"), (48, some 55, "Storm"),
   (56, some 63, "Violent storm"), (64, none, "Hurricane force")]

/-- `lower <= speed_knots <= upper` for one row of the table. -/
def inBand (s : ℚ) (b : ℚ × Option ℚ × String) : Bool :=
  decide (b.1 ≤ s) &&
    (match b.2.1 with
     | some u => decide (s ≤ u)
     | none => true)

/-- The `for i, (lower, upper, description) in enumerate(...)` scan with the
final catch-all `return 12, "Hurricane force"`. -/
def scanScale : List (ℚ × Option ℚ × String) → ℕ → ℚ → ℕ × String
  | [], _, _ => (12, "Hurricane force")
  | b :: rest, i, s => if inBand s b then (i, b.2.2) else scanScale rest (i + 1) s

/-- `get_wind_description(speed_knots)` of converters.py; `none` models the
Python `None` input. -/
def get_wind_description : Option ℚ → ℕ × String
  | none => (0, "Unknown")
  | some s => scanScale beaufort_scale 0 s

/-! ## main.py — the per-cycle check -/

/-- The record `save_last_check` writes to `debug/last_check.json`
(timestamp and datetime omitted: wall-clock values with no bearing on any
claim). -/
structure LastCheckRecord where
  wind_speed : ℚ
  wind_gust : Option ℚ
  wind_description : String
  beaufort_num : ℕ
  threshold : ℚ
  above_threshold : Bool
deriving DecidableEq

/-- `save_last_check(wind_speed, wind_gust)` of main.py (threshold made an
explicit argument in place of the module constant `WIND_THRESHOLD`). -/
def save_last_check (wind_speed : ℚ) (wind_gust : Option ℚ) (threshold : ℚ) :
    LastCheckRecord :=
  let bd := get_wind_description (some wind_speed)
  { wind_speed := wind_speed
    wind_gust := wind_gust
    wind_description := bd.2
    beaufort_num := bd.1
    threshold := threshold
    above_threshold := decide (wind_speed ≥ threshold) }

/-- The observable outcome of one `check_wind` cycle: whether
`send_notification` was invoked, and the record `save_last_check` wrote
(none when it was not called). -/
structure CheckOutcome where
  notified : Bool
  saved : Option LastCheckRecord
deriving DecidableEq

/-- `check_wind()` of main.py, its inputs (the wind speed and gust that
`get_wind_data` produced, in knots, `none` for Python `None`) made explicit:
only when a speed was obtained does it compare against the threshold,
notify on `wind_speed >= WIND_THRESHOLD`, and call `save_last_check`;
otherwise it just logs a warning. -/
def check_wind (threshold : ℚ) (wind_speed wind_gust : Option ℚ) : CheckOutcome :=
  match wind_speed with
  | some s =>
    { notified := decide (s ≥ threshold)
      saved := some (save_last_check s wind_gust threshold) }
  | none => { notified := false, saved := none }

/-! ## scraper/weatherlink.py — the extraction engine

`get_weather_data` drives Selenium; the browser side is abstracted into a
`Page` value carrying the outcome of each DOM-level step (which may raise,
modelled by `StepResult.raised` / boolean raise flags), while the free-text
last resort (`extract_from_text`) is embedded with its real regexes over
the page's flat text. Python exceptions travel in `Except Unit`. -/

/-- Outcome of one DOM extraction step (`extract_element_by_label`, or the
direction/temperature lookups): a value found, nothing found, or an
exception raised inside the step. -/
inductive StepResult where
  | found : String → StepResult
  | notFound : StepResult
  | raised : StepResult
deriving DecidableEq

/-- The raw text the step put in the dictionary, if any. -/
def StepResult.value : StepResult → Option String
  | .found s => some s
  | _ => none

/-- The `weather_data` dictionary: one optional raw-text entry per field
key (`'wind_speed' in weather_data` becomes `wind_speed ≠ none`). -/
structure WeatherData where
  wind_speed : Option String
  gust_speed : Option String
  wind_direction : Option String
  temperature : Option String
deriving DecidableEq

/-- The empty dictionary `{}`. -/
def WeatherData.empty : WeatherData := ⟨none, none, none, none⟩

/-- Abstraction of one Selenium session against the rendered page. -/
structure Page where
  /-- Driver init, navigation and waits succeed (false models a raise in
  lines 51–70: `webdriver.Chrome`, `driver.get`, timeouts). -/
  fetchOk : Bool
  /-- `extract_element_by_label` for `wind_speed` (label-adjacency then
  value-pattern lookup). -/
  directWind : StepResult
  /-- `extract_element_by_label` for `gust_speed`. -/
  directGust : StepResult
  /-- The wind-direction XPath lookup. -/
  directDirection : StepResult
  /-- The temperature XPath lookup. -/
  directTemperature : StepResult
  /-- `extract_from_elements` over the keyword text nodes, for `wind_speed`. -/
  elemWind : Option String
  /-- `extract_from_elements` over the keyword text nodes, for `gust_speed`. -/
  elemGust : Option String
  /-- The debug-HTML write at the top of `fallback_extraction` raises. -/
  debugWriteRaises : Bool
  /-- `soup.get_text(separator='\n', strip=True)`: the flat rendered text. -/
  allText : String
  /-- The wind-direction last-resort regex over the flat text (abstracted). -/
  dirText : Option String
  /-- The `finally` block's teardown fails: `driver` was bound (so
  `'driver' in locals()` holds) and `driver.quit()` at line 132 raises.
  When `webdriver.Chrome` itself raised, `quit` is never called, so a
  faithful instantiation then has this false. -/
  quitRaises : Bool

/-- Lines 84–116: the direct-targeting `try` block. The four lookups run in
order; a raise inside the block is caught by the `except` at line 115, so
the assignments made before the raise survive. -/
def directPhase (p : Page) : WeatherData :=
  let d0 := WeatherData.empty
  match p.directWind with
  | .raised => d0
  | r1 =>
    let d1 := { d0 with wind_speed := r1.value }
    match p.directGust with
    | .raised => d1
    | r2 =>
      let d2 := { d1 with gust_speed := r2.value }
      match p.directDirection with
      | .raised => d2
      | r3 =>
        let d3 := { d2 with wind_direction := r3.value }
        match p.directTemperature with
        | .raised => d3
        | r4 => { d3 with temperature := r4.value }

/-- One label of the context regexes: `wind\s+speed` or `gust`. -/
inductive LabelPat where
  | windSpeed
  | gust
deriving DecidableEq

/-- Case-insensitive literal at the head of `cs`, keeping only the rest. -/
def matchLitCI (tok cs : List Char) : Option (List Char) :=
  (matchToken tok cs).map (fun r => r.2)

/-- Match the label at the head of `cs`. For `wind\s+speed` the `\s+` is
greedy and (since `s` is not whitespace) forced to the maximal run. -/
def matchLabel : LabelPat → List Char → Option (List Char)
  | .gust, cs => matchLitCI ['g', 'u', 's', 't'] cs
  | .windSpeed, cs =>
    match matchLitCI ['w', 'i', 'n', 'd'] cs with
    | none => none
    | some rest =>
      match rest with
      | [] => none
      | c :: _ =>
        if pySpace c then matchLitCI ['s', 'p', 'e', 'e', 'd'] (rest.dropWhile pySpace)
        else none

/-- Match `(\d+(?:[,.]\d+)?)\s*(mph|km/h|kts|knots)` at the head of `cs`,
unit mandatory. Backtracking analysis: a shorter `\d+` (or a shortened
fractional part) leaves a digit as the next character, on which neither
`[,.]\d` nor `\s*`-then-unit can proceed, and a shortened `\s*` leaves
whitespace, on which no unit token starts — so the greedy take of each
piece is the only candidate. Returns (group 1, group 2 raw). -/
def matchNumUnit (cs : List Char) : Option (List Char × List Char) :=
  match matchNumber cs with
  | none => none
  | some (num, rest) =>
    match matchUnit (rest.dropWhile pySpace) with
    | some (u, _) => some (num, u)
    | none => none

/-- `re.search` of the context-free pattern `number unit` anywhere: try
every start position left to right, first match wins. -/
def searchNumUnit : List Char → Option (List Char × List Char)
  | [] => none
  | c :: cs =>
    match matchNumUnit (c :: cs) with
    | some r => some r
    | none => searchNumUnit cs

/-- The lazy `.*?` tail of the context pattern: from the current position,
try `number unit` at the nearest position first; `.` does not match a
newline (no `re.DOTALL`), so the scan stops at the first `'\n'`. -/
def dotstarNumUnit : List Char → Option (List Char × List Char)
  | [] => none
  | c :: cs =>
    match matchNumUnit (c :: cs) with
    | some r => some r
    | none => if c = '\n' then none else dotstarNumUnit cs

/-- `re.search` of the context pattern `label.*?number unit`: leftmost
start position whose label match extends through `.*?` to a `number unit`
match wins. -/
def searchContext (lab : LabelPat) : List Char → Option (List Char × List Char)
  | [] => none
  | c :: cs =>
    match matchLabel lab (c :: cs) with
    | some rest =>
      match dotstarNumUnit rest with
      | some r => some r
      | none => searchContext lab cs
    | none => searchContext lab cs

/-- `group(1).replace(',', '.')`. -/
def pyReplaceComma (cs : List Char) : List Char :=
  cs.map (fun c => if c = ',' then '.' else c)

/-- `f"{value} {unit}"` with the comma normalization of extract_from_text. -/
def formatMatch (num u : List Char) : String :=
  String.mk (pyReplaceComma num ++ ' ' :: u)

/-- `extract_from_text(text, ..., context_pattern, fallback_pattern)` of
weatherlink.py for one field: the context-qualified regex first, and only
when it fails the context-free one; `none` when both fail. -/
def extract_from_text (lab : LabelPat) (text : String) : Option String :=
  match searchContext lab text.toList with
  | some (num, u) => some (formatMatch num u)
  | none =>
    match searchNumUnit text.toList with
    | some (num, u) => some (formatMatch num u)
    | none => none

/-- `fallback_extraction(driver, weather_data, save_debug_files)`: the
debug-HTML write (which can raise, uncaught), then per still-missing field
the keyword-element pass, then per still-missing field the free-text pass,
then the direction last resort. -/
def fallback_extraction (p : Page) (d0 : WeatherData) : Except Unit WeatherData :=
  if p.debugWriteRaises then .error () else
  let d1 := if d0.wind_speed = none then { d0 with wind_speed := p.elemWind } else d0
  let d2 := if d1.gust_speed = none then { d1 with gust_speed := p.elemGust } else d1
  let d3 := if d2.wind_speed = none then
      { d2 with wind_speed := extract_from_text .windSpeed p.allText } else d2
  let d4 := if d3.gust_speed = none then
      { d3 with gust_speed := extract_from_text .gust p.allText } else d3
  let d5 := if d4.wind_direction = none then { d4 with wind_direction := p.dirText } else d4
  .ok d5

/-- The body of `get_weather_data`'s outer `try` (lines 49–122): fetch,
direct targeting, and — only if `wind_speed` or `gust_speed` is still
missing — `fallback_extraction`. An `Except.error` is an exception
reaching the outer handler. -/
def get_weather_data_body (p : Page) : Except Unit WeatherData :=
  if p.fetchOk = false then .error () else
  let d := directPhase p
  if d.wind_speed = none ∨ d.gust_speed = none then fallback_extraction p d
  else .ok d

/-- The `try`/`except` of `get_weather_data(url, save_debug_files)`: the
outer handler catches everything the body raises and returns `{}`. This is
the value the function returns when the `finally` block's teardown does
not raise; the whole function including the `finally` is
`get_weather_data_full`. -/
def get_weather_data (p : Page) : WeatherData :=
  match get_weather_data_body p with
  | .ok d => d
  | .error _ => WeatherData.empty

/-- The `try`/`except` outcome in the exception monad: the body wrapped in
the outer handler, before the `finally` block runs. -/
def get_weather_data_result (p : Page) : Except Unit WeatherData :=
  match get_weather_data_body p with
  | .ok d => .ok d
  | .error _ => .ok WeatherData.empty

/-- The whole of `get_weather_data` as the caller observes it, including
the `finally` block (lines 129–133): after the body or the outer handler
has settled a pending return, `driver.quit()` runs — when the driver was
bound — with no handler of its own, and if it raises, that exception
replaces the pending return (Python `finally` semantics). -/
def get_weather_data_full (p : Page) : Except Unit WeatherData :=
  if p.quitRaises then .error () else get_weather_data_result p

/-! ## Helper lemmas on the Beaufort scan -/

theorem inBand_false_of (s lo hi : ℚ) (d : String) (h : s < lo ∨ hi < s) :
    inBand s (lo, some hi, d) = false := by
  rcases h with h | h
  · have hne : ¬ (lo ≤ s) := not_le.mpr h
    simp [inBand, hne]
  · have hne : ¬ (s ≤ hi) := not_le.mpr h
    simp [inBand, hne]

/-- When a speed fails the first twelve rows, the scan ends in the
thirteenth row or the catch-all — and both yield (12, "Hurricane force"). -/
theorem scanScale_tail12 (s : ℚ)
    (h : ∀ b ∈ beaufort_scale.take 12, inBand s b = false) :
    get_wind_description (some s) = (12, "Hurricane force") := by
  have h0 := h (0, some 1, "Calm") (by decide)
  have h1 := h (1, some 3, "Light air") (by decide)
  have h2 := h (4, some 6, "Light breeze") (by decide)
  have h3 := h (7, some 10, "Gentle breeze") (by decide)
  have h4 := h (11, some 16, "Moderate breeze") (by decide)
  have h5 := h (17, some 21, "Fresh breeze") (by decide)
  have h6 := h (22, some 27, "Strong breeze") (by decide)
  have h7 := h (28, some 33, "Near gale") (by decide)
  have h8 := h (34, some 40, "Gale") (by decide)
  have h9 := h (41, some 47, "Strong gale") (by decide)
  have h10 := h (48, some 55, "Storm") (by decide)
  have h11 := h (56, some 63, "Violent storm") (by decide)
  simp [get_wind_description, beaufort_scale, scanScale,
    h0, h1, h2, h3, h4, h5, h6, h7, h8, h9, h10, h11]

/-- The scan starting at index `i` over a list of rows returns either an
index below `i + length` (a hit) or the catch-all index 12. -/
theorem scanScale_fst_bound (s : ℚ) :
    ∀ (l : List (ℚ × Option ℚ × String)) (i : ℕ),
      (scanScale l i s).1 + 1 ≤ i + l.length ∨ (scanScale l i s).1 = 12 := by
  intro l
  induction l with
  | nil => intro i; right; rfl
  | cons b rest ih =>
    intro i
    simp only [scanScale, List.length_cons]
    by_cases hc : inBand s b = true
    · rw [if_pos hc]; left; omega
    · rw [if_neg hc]
      rcases ih (i + 1) with h | h
      · left; omega
      · right; exact h

/-- Any speed that is negative or falls strictly inside one of the table's
eleven inter-band gaps misses every row of the first twelve. -/
theorem catchall_of_bounds (s : ℚ)
    (h : s < 0 ∨ (3 < s ∧ s < 4) ∨ (6 < s ∧ s < 7) ∨ (10 < s ∧ s < 11) ∨
      (16 < s ∧ s < 17) ∨ (21 < s ∧ s < 22) ∨ (27 < s ∧ s < 28) ∨
      (33 < s ∧ s < 34) ∨ (40 < s ∧ s < 41) ∨ (47 < s ∧ s < 48) ∨
      (55 < s ∧ s < 56) ∨ (63 < s ∧ s < 64)) :
    get_wind_description (some s) = (12, "Hurricane force") := by
  apply scanScale_tail12
  intro b hb
  fin_cases hb <;>
    · apply inBand_false_of
      rcases h with h | ⟨ha, hb2⟩ | ⟨ha, hb2⟩ | ⟨ha, hb2⟩ | ⟨ha, hb2⟩ | ⟨ha, hb2⟩ |
        ⟨ha, hb2⟩ | ⟨ha, hb2⟩ | ⟨ha, hb2⟩ | ⟨ha, hb2⟩ | ⟨ha, hb2⟩ | ⟨ha, hb2⟩ <;>
        first | (left ; linarith) | (right ; linarith)

/-! ## Claim C1 -/

/-- Claim C1, counterexample: 3.5 is a non-negative speed lying in none of
the 13 bands (the listed closed intervals leave the open gap (3, 4)
uncovered), so they do not partition `[0, ∞)`; `get_wind_description`
resolves 3.5 through the catch-all instead. Also, the bands overlap: the
boundary speed 1 lies in both band 0 (0..1) and band 1 (1..3). -/
theorem beaufort_no_partition_cex :
    ((0 : ℚ) ≤ 7 / 2 ∧ ∀ b ∈ beaufort_scale, inBand (7 / 2) b = false)
  ∧ get_wind_description (some (7 / 2)) = (12, "Hurricane force")
  ∧ (inBand 1 (0, some 1, "Calm") = true ∧ inBand 1 (1, some 3, "Light air") = true) := by
  refine ⟨⟨by norm_num, by norm_num [beaufort_scale, inBand]⟩,
    by norm_num [get_wind_description, scanScale, beaufort_scale, inBand], by decide, by decide⟩

/-- Claim C1, amended: `get_wind_description` is total and returns exactly
one band index, always in 0..12; the 13 closed intervals cover every
non-negative integer speed (adjacent bands 0 and 1 sharing the point 1,
where the first match wins), though not every rational in `[0, ∞)`; any
value ≥ 64 maps to band 12; a null input maps to (0, "Unknown"). -/
theorem beaufort_bands_amended :
    (∀ n : ℕ, ∃ b ∈ beaufort_scale, inBand (n : ℚ) b = true)
  ∧ get_wind_description (some 1) = (0, "Calm")
  ∧ (∀ s : ℚ, 64 ≤ s → get_wind_description (some s) = (12, "Hurricane force"))
  ∧ (∀ s : ℚ, (get_wind_description (some s)).1 ≤ 12)
  ∧ get_wind_description none = (0, "Unknown") := by
  refine ⟨?_, by decide, ?_, ?_, rfl⟩
  · have hlow : ∀ n : ℕ, n < 64 → ∃ b ∈ beaufort_scale, inBand (n : ℚ) b = true := by decide
    intro n
    by_cases hn : n < 64
    · exact hlow n hn
    · refine ⟨(64, none, "Hurricane force"), by decide, ?_⟩
      have hcast : (64 : ℚ) ≤ (n : ℚ) := by exact_mod_cast Nat.le_of_not_lt hn
      simp [inBand, hcast]
  · intro s hs
    apply scanScale_tail12
    intro b hb
    fin_cases hb <;>
      · apply inBand_false_of
        right
        linarith
  · intro s
    have hb := scanScale_fst_bound s beaufort_scale 0
    have hlen : beaufort_scale.length = 13 := rfl
    rcases hb with h | h
    · simp only [get_wind_description]
      omega
    · simp only [get_wind_description]
      omega

/-! ## Claim C10 -/

/-- Claim C10: every non-null speed lying in none of the table's listed
intervals — every negative value, and every value strictly between one
band's upper bound and the next band's lower bound — falls through the
scan to the catch-all (12, "Hurricane force"). -/
theorem beaufort_gap_catchall (s : ℚ)
    (h : s < 0 ∨ ∃ (i : ℕ) (lo hi : ℚ) (d : String) (b2 : ℚ × Option ℚ × String),
      beaufort_scale[i]? = some (lo, some hi, d) ∧
      beaufort_scale[i + 1]? = some b2 ∧ hi < s ∧ s < b2.1) :
    get_wind_description (some s) = (12, "Hurricane force") := by
  rcases h with hneg | ⟨i, lo, hi, d, b2, e1, e2, hgt, hlt⟩
  · exact catchall_of_bounds s (Or.inl hneg)
  · have hlen : i + 1 < 13 := by
      by_contra hge
      rw [List.getElem?_eq_none (by simp [beaufort_scale] ; omega)] at e2
      exact absurd e2 (by simp)
    have hi12 : i < 12 := by omega
    apply catchall_of_bounds
    interval_cases i
    · rw [show beaufort_scale[(0 : ℕ)]? = some ((0 : ℚ), some 1, "Calm") from rfl] at e1
      rw [show beaufort_scale[(1 : ℕ)]? = some ((1 : ℚ), some 3, "Light air") from rfl] at e2
      simp only [Option.some.injEq, Prod.mk.injEq] at e1 e2
      obtain ⟨-, rfl, -⟩ := e1
      rw [← e2] at hlt
      exact absurd (hgt.trans hlt) (by norm_num)
    · rw [show beaufort_scale[(1 : ℕ)]? = some ((1 : ℚ), some 3, "Light air") from rfl] at e1
      rw [show beaufort_scale[(2 : ℕ)]? = some ((4 : ℚ), some 6, "Light breeze") from rfl] at e2
      simp only [Option.some.injEq, Prod.mk.injEq] at e1 e2
      obtain ⟨-, rfl, -⟩ := e1
      rw [← e2] at hlt
      exact Or.inr (Or.inl ⟨hgt, hlt⟩)
    · rw [show beaufort_scale[(2 : ℕ)]? = some ((4 : ℚ), some 6, "Light breeze") from rfl] at e1
      rw [show beaufort_scale[(3 : ℕ)]? = some ((7 : ℚ), some 10, "Gentle breeze") from rfl] at e2
      simp only [Option.some.injEq, Prod.mk.injEq] at e1 e2
      obtain ⟨-, rfl, -⟩ := e1
      rw [← e2] at hlt
      exact Or.inr (Or.inr (Or.inl ⟨hgt, hlt⟩))
    · rw [show beaufort_scale[(3 : ℕ)]? = some ((7 : ℚ), some 10, "Gentle breeze") from rfl] at e1
      rw [show beaufort_scale[(4 : ℕ)]? = some ((11 : ℚ), some 16, "Moderate breeze") from rfl] at e2
      simp only [Option.some.injEq, Prod.mk.injEq] at e1 e2
      obtain ⟨-, rfl, -⟩ := e1
      rw [← e2] at hlt
      exact Or.inr (Or.inr (Or.inr (Or.inl ⟨hgt, hlt⟩)))
    · rw [show beaufort_scale[(4 : ℕ)]? = some ((11 : ℚ), some 16, "Moderate breeze") from rfl] at e1
      rw [show beaufort_scale[(5 : ℕ)]? = some ((17 : ℚ), some 21, "Fresh breeze") from rfl] at e2
      simp only [Option.some.injEq, Prod.mk.injEq] at e1 e2
      obtain ⟨-, rfl, -⟩ := e1
      rw [← e2] at hlt
      exact Or.inr (Or.inr (Or.inr (Or.inr (Or.inl ⟨hgt, hlt⟩))))
    · rw [show beaufort_scale[(5 : ℕ)]? = some ((17 : ℚ), some 21, "Fresh breeze") from rfl] at e1
      rw [show beaufort_scale[(6 : ℕ)]? = some ((22 : ℚ), some 27, "Strong breeze") from rfl] at e2
      simp only [Option.some.injEq, Prod.mk.injEq] at e1 e2
      obtain ⟨-, rfl, -⟩ := e1
      rw [← e2] at hlt
      exact Or.inr (Or.inr (Or.inr (Or.inr (Or.inr (Or.inl ⟨hgt, hlt⟩)))))
    · rw [show beaufort_scale[(6 : ℕ)]? = some ((22 : ℚ), some 27, "Strong breeze") from rfl] at e1
      rw [show beaufort_scale[(7 : ℕ)]? = some ((28 : ℚ), some 33, "Near gale") from rfl] at e2
      simp only [Option.some.injEq, Prod.mk.injEq] at e1 e2
      obtain ⟨-, rfl, -⟩ := e1
      rw [← e2] at hlt
      exact Or.inr (Or.inr (Or.inr (Or.inr (Or.inr (Or.inr (Or.inl ⟨hgt, hlt⟩))))))
    · rw [show beaufort_scale[(7 : ℕ)]? = some ((28 : ℚ), some 33, "Near gale") from rfl] at e1
      rw [show beaufort_scale[(8 : ℕ)]? = some ((34 : ℚ), some 40, "Gale") from rfl] at e2
      simp only [Option.some.injEq, Prod.mk.injEq] at e1 e2
      obtain ⟨-, rfl, -⟩ := e1
      rw [← e2] at hlt
      exact Or.inr (Or.inr (Or.inr (Or.inr (Or.inr (Or.inr (Or.inr (Or.inl ⟨hgt, hlt⟩)))))))
    · rw [show beaufort_scale[(8 : ℕ)]? = some ((34 : ℚ), some 40, "Gale") from rfl] at e1
      rw [show beaufort_scale[(9 : ℕ)]? = some ((41 : ℚ), some 47, "Strong gale") from rfl] at e2
      simp only [Option.some.injEq, Prod.mk.injEq] at e1 e2
      obtain ⟨-, rfl, -⟩ := e1
      rw [← e2] at hlt
      exact Or.inr (Or.inr (Or.inr (Or.inr (Or.inr (Or.inr (Or.inr (Or.inr (Or.inl ⟨hgt, hlt⟩))))))))
    · rw [show beaufort_scale[(9 : ℕ)]? = some ((41 : ℚ), some 47, "Strong gale") from rfl] at e1
      rw [show beaufort_scale[(10 : ℕ)]? = some ((48 : ℚ), some 55, "Storm") from rfl] at e2
      simp only [Option.some.injEq, Prod.mk.injEq] at e1 e2
      obtain ⟨-, rfl, -⟩ := e1
      rw [← e2] at hlt
      exact Or.inr (Or.inr (Or.inr (Or.inr (Or.inr (Or.inr (Or.inr (Or.inr (Or.inr (Or.inl ⟨hgt, hlt⟩)))))))))
    · rw [show beaufort_scale[(10 : ℕ)]? = some ((48 : ℚ), some 55, "Storm") from rfl] at e1
      rw [show beaufort_scale[(11 : ℕ)]? = some ((56 : ℚ), some 63, "Violent storm") from rfl] at e2
      simp only [Option.some.injEq, Prod.mk.injEq] at e1 e2
      obtain ⟨-, rfl, -⟩ := e1
      rw [← e2] at hlt
      exact Or.inr (Or.inr (Or.inr (Or.inr (Or.inr (Or.inr (Or.inr (Or.inr (Or.inr (Or.inr (Or.inl ⟨hgt, hlt⟩))))))))))
    · rw [show beaufort_scale[(11 : ℕ)]? = some ((56 : ℚ), some 63, "Violent storm") from rfl] at e1
      rw [show beaufort_scale[(12 : ℕ)]? = some ((64 : ℚ), none, "Hurricane force") from rfl] at e2
      simp only [Option.some.injEq, Prod.mk.injEq] at e1 e2
      obtain ⟨-, rfl, -⟩ := e1
      rw [← e2] at hlt
      exact Or.inr (Or.inr (Or.inr (Or.inr (Or.inr (Or.inr (Or.inr (Or.inr (Or.inr (Or.inr (Or.inr ⟨hgt, hlt⟩))))))))))

/-- Claim C10 witness: the negative speed -1 is in no band and maps to the
catch-all. -/
theorem beaufort_gap_catchall_witness :
    get_wind_description (some (-1 : ℚ)) = (12, "Hurricane force") :=
  beaufort_gap_catchall (-1) (Or.inl (by norm_num))

/-! ## Claim C2 -/

/-- Claim C2, counterexample: on a cycle where no wind speed was obtained
(the NoData case), `check_wind` writes no record at all — the claimed
null-sentinel snapshot is never persisted. -/
theorem check_wind_nodata_cex :
    (check_wind 15 none none).saved = none ∧ (check_wind 15 none none).notified = false :=
  ⟨rfl, rfl⟩

/-- Claim C2, amended: `check_wind` persists a `LastCheckRecord` only on
cycles where a wind speed was obtained (`save_last_check` is called inside
the `wind_speed is not None` branch); in the NoData case nothing is
written and no notification is dispatched. -/
theorem check_wind_persistence (threshold : ℚ) (gust : Option ℚ) :
    (check_wind threshold none gust = ⟨false, none⟩)
  ∧ (∀ s : ℚ, (check_wind threshold (some s) gust).saved =
      some (save_last_check s gust threshold)) :=
  ⟨rfl, fun _ => rfl⟩

/-! ## Claim C4 -/

/-- Claim C4: the threshold comparison in `check_wind` is inclusive — for
every obtained speed a notification goes out exactly when
`speed ≥ threshold`; in particular the boundary speed `threshold` itself
notifies and `threshold - 0.01` does not. -/
theorem check_wind_threshold_inclusive (threshold s : ℚ) (gust : Option ℚ) :
    ((check_wind threshold (some s) gust).notified = true ↔ s ≥ threshold)
  ∧ (check_wind threshold (some threshold) gust).notified = true
  ∧ (check_wind threshold (some (threshold - 1 / 100)) gust).notified = false := by
  refine ⟨?_, ?_, ?_⟩
  · simp [check_wind]
  · simp [check_wind]
  · simp only [check_wind, decide_eq_false_iff_not, ge_iff_le, not_le]
    linarith

/-! ## Claim C5 -/

/-- Claim C5: `convert_to_knots` multiplies by the fixed factor of each
recognized unit (knots 1, km/h 0.539957, mph 0.868976, m/s 1.94384), is
additive and monotone in the value for each of the four units, and maps
(1, "knots") to 1. -/
theorem convert_to_knots_table :
    (∀ v : ℚ,
      convert_to_knots v "knots" = v * 1
      ∧ convert_to_knots v "km/h" = v * (539957 / 1000000)
      ∧ convert_to_knots v "mph" = v * (868976 / 1000000)
      ∧ convert_to_knots v "m/s" = v * (194384 / 100000))
  ∧ (∀ u ∈ (["knots", "km/h", "mph", "m/s"] : List String), ∀ v w : ℚ,
      convert_to_knots (v + w) u = convert_to_knots v u + convert_to_knots w u
      ∧ (v ≤ w → convert_to_knots v u ≤ convert_to_knots w u))
  ∧ convert_to_knots 1 "knots" = 1 := by
  refine ⟨fun v => ⟨(mul_one v).symm, rfl, rfl, rfl⟩, ?_, rfl⟩
  intro u hu v w
  fin_cases hu
  · exact ⟨rfl, fun h => h⟩
  · exact ⟨by show (v + w) * _ = v * _ + w * _ ; ring,
      fun h => by show v * _ ≤ w * _ ; nlinarith⟩
  · exact ⟨by show (v + w) * _ = v * _ + w * _ ; ring,
      fun h => by show v * _ ≤ w * _ ; nlinarith⟩
  · exact ⟨by show (v + w) * _ = v * _ + w * _ ; ring,
      fun h => by show v * _ ≤ w * _ ; nlinarith⟩

/-! ## Claim C6 -/

/-- Claim C6: for every unit string that (after lowercasing, as the code
does first) is none of the recognized tokens, `convert_to_knots` takes the
warn-and-pass-through branch and returns the value unchanged; being a total
function of its two arguments, it never raises. -/
theorem convert_to_knots_unknown_unit (v : ℚ) (u : String)
    (h : pyStrLower u ∉ recognizedUnits) : convert_to_knots v u = v := by
  simp only [recognizedUnits, List.mem_cons, List.not_mem_nil, or_false, not_or] at h
  obtain ⟨h1, h2, h3, h4, h5, h6, h7⟩ := h
  simp [convert_to_knots, h1, h2, h3, h4, h5, h6, h7]

/-- Claim C6 witness: the unknown unit "furlongs" passes the value 5
through unchanged. -/
theorem convert_to_knots_unknown_unit_witness : convert_to_knots 5 "furlongs" = 5 :=
  convert_to_knots_unknown_unit 5 "furlongs" (by decide)

/-! ## Helper lemmas on the unit alternation -/

/-- Characters matched case-insensitively against a token lowercase to the
token's lowercasing. -/
theorem matchToken_lower :
    ∀ (t cs m rest : List Char), matchToken t cs = some (m, rest) →
      m.map Char.toLower = t.map Char.toLower := by
  intro t
  induction t with
  | nil =>
    intro cs m rest h
    simp only [matchToken, Option.some.injEq, Prod.mk.injEq] at h
    simp [← h.1]
  | cons c ts ih =>
    intro cs m rest h
    cases cs with
    | nil => simp [matchToken] at h
    | cons x xs =>
      simp only [matchToken] at h
      by_cases hx : x.toLower = c.toLower
      · rw [if_pos hx] at h
        cases hmt : matchToken ts xs with
        | none => rw [hmt] at h; simp at h
        | some r =>
          rw [hmt] at h
          simp only [Option.some.injEq, Prod.mk.injEq] at h
          obtain ⟨hm, -⟩ := h
          rw [← hm]
          simp only [List.map_cons, hx]
          rw [ih xs r.1 r.2 (by rw [hmt])]
      · rw [if_neg hx] at h
        simp at h

/-- Whatever raw text the unit alternation matched, its lowercasing is one
of the four alternatives. -/
theorem matchUnit_mem (cs u rest : List Char) (h : matchUnit cs = some (u, rest)) :
    String.mk (pyLower u) ∈ (["mph", "km/h", "kts", "knots"] : List String) := by
  unfold matchUnit at h
  cases h1 : matchToken ['m', 'p', 'h'] cs with
  | some r =>
    rw [h1] at h
    simp only [Option.some.injEq] at h
    have := matchToken_lower ['m', 'p', 'h'] cs u rest (by rw [h1, h])
    simp only [pyLower, this]
    decide
  | none =>
    rw [h1] at h
    cases h2 : matchToken ['k', 'm', '/', 'h'] cs with
    | some r =>
      rw [h2] at h
      simp only [Option.some.injEq] at h
      have := matchToken_lower ['k', 'm', '/', 'h'] cs u rest (by rw [h2, h])
      simp only [pyLower, this]
      decide
    | none =>
      rw [h2] at h
      cases h3 : matchToken ['k', 't', 's'] cs with
      | some r =>
        rw [h3] at h
        simp only [Option.some.injEq] at h
        have := matchToken_lower ['k', 't', 's'] cs u rest (by rw [h3, h])
        simp only [pyLower, this]
        decide
      | none =>
        rw [h3] at h
        have := matchToken_lower ['k', 'n', 'o', 't', 's'] cs u rest h
        simp only [pyLower, this]
        decide

/-! ## Claim C3 -/

/-- Claim C3: `parse_wind_data` round-trips "18.5 mph" to (18.5, "mph"),
normalizes the comma in "22,3 km/h" to (22.3, "km/h"), returns null on
"no numbers here", and whenever a number is found but no token of the unit
alternation follows it (after optional whitespace), the unit defaults to
"mph". -/
theorem parse_wind_data_roundtrip :
    parse_wind_data "18.5 mph" = some (18.5, "mph")
  ∧ parse_wind_data "22,3 km/h" = some (22.3, "km/h")
  ∧ parse_wind_data "no numbers here" = none
  ∧ (∀ (s : String) (num rest : List Char), firstNumber s.toList = some (num, rest) →
      matchUnit (rest.dropWhile pySpace) = none →
      parse_wind_data s = some (charsToRat num, "mph")) := by
  refine ⟨?_, ?_, by decide, ?_⟩
  · rw [show parse_wind_data "18.5 mph" = some (charsToRat ['1', '8', '.', '5'], "mph") from rfl,
      show charsToRat ['1', '8', '.', '5'] =
        (digitsToNat ['1', '8'] : ℚ) + (digitsToNat ['5'] : ℚ) / 10 ^ (1 : ℕ) from rfl,
      show digitsToNat ['1', '8'] = 18 from by decide,
      show digitsToNat ['5'] = 5 from by decide]
    norm_num
  · rw [show parse_wind_data "22,3 km/h" = some (charsToRat ['2', '2', ',', '3'], "km/h") from rfl,
      show charsToRat ['2', '2', ',', '3'] =
        (digitsToNat ['2', '2'] : ℚ) + (digitsToNat ['3'] : ℚ) / 10 ^ (1 : ℕ) from rfl,
      show digitsToNat ['2', '2'] = 22 from by decide,
      show digitsToNat ['3'] = 3 from by decide]
    norm_num
  · intro s num rest h1 h2
    have hs : ¬ s = "" := by
      intro he
      rw [he] at h1
      simp [firstNumber] at h1
    unfold parse_wind_data searchNumberUnit
    rw [if_neg hs]
    simp only [h1, h2]

/-! ## Claim C9 -/

/-- Claim C9: `parse_wind_data` never yields the unit "m/s" — its unit
alternation recognizes only mph, km/h, kts and knots — so "5 m/s" parses
as (5, "mph"): the m/s token is ignored and the mph default applies. -/
theorem parse_wind_data_never_ms :
    parse_wind_data "5 m/s" = some (5, "mph")
  ∧ (∀ (s : String) (v : ℚ) (u : String), parse_wind_data s = some (v, u) →
      u ∈ (["mph", "km/h", "kts", "knots"] : List String) ∧ u ≠ "m/s") := by
  refine ⟨by decide, ?_⟩
  intro s v u h
  have hmem : u ∈ (["mph", "km/h", "kts", "knots"] : List String) := by
    unfold parse_wind_data at h
    by_cases hs : s = ""
    · rw [if_pos hs] at h; simp at h
    · rw [if_neg hs] at h
      unfold searchNumberUnit at h
      cases hf : firstNumber s.toList with
      | none => rw [hf] at h; simp at h
      | some nr =>
        obtain ⟨num, rest⟩ := nr
        simp only [hf] at h
        cases hu : matchUnit (rest.dropWhile pySpace) with
        | some ur =>
          obtain ⟨uraw, r2⟩ := ur
          simp only [hu, Option.some.injEq, Prod.mk.injEq] at h
          rw [← h.2]
          exact matchUnit_mem _ uraw r2 hu
        | none =>
          simp only [hu, Option.some.injEq, Prod.mk.injEq] at h
          rw [← h.2]
          decide
  refine ⟨hmem, ?_⟩
  fin_cases hmem <;> decide

/-! ## Claim C7 -/

/-- Claim C7, counterexample: `get_weather_data` can throw. The `finally`
block at lines 129–133 calls `driver.quit()` with no handler; on a session
where the fetch failed after the driver was bound and the teardown also
fails, the outer handler settles on returning `{}` but the `finally`
raise replaces that pending return, so the exception escapes the
function. -/
theorem get_weather_data_teardown_throw_cex :
    get_weather_data_full ⟨false, .notFound, .notFound, .notFound, .notFound, none, none,
      false, "", none, true⟩ = Except.error ()
  ∧ get_weather_data_result ⟨false, .notFound, .notFound, .notFound, .notFound, none, none,
      false, "", none, true⟩ = Except.ok WeatherData.empty :=
  ⟨rfl, rfl⟩

/-- Claim C7, amended: every failure raised inside the `try` body — the
fetch or any extraction strategy — is caught by the outer handler, which
turns total failure into the empty mapping, so the caller treats a missing
`wind_speed` key as the no-data case; the one escape is the `finally`
block, whose unguarded `driver.quit()` replaces the pending result with
its own exception when the bound driver's teardown fails — whenever the
teardown does not raise, the function never throws. -/
theorem get_weather_data_throws_only_in_teardown (p : Page) :
    (p.quitRaises = false → get_weather_data_full p = Except.ok (get_weather_data p))
  ∧ (∀ e : Unit, get_weather_data_body p = Except.error e →
      get_weather_data p = WeatherData.empty)
  ∧ (p.fetchOk = false → get_weather_data p = WeatherData.empty)
  ∧ (p.quitRaises = true → get_weather_data_full p = Except.error ()) := by
  refine ⟨?_, ?_, ?_, ?_⟩
  · intro hq
    unfold get_weather_data_full
    rw [if_neg (by simp [hq])]
    unfold get_weather_data_result get_weather_data
    cases get_weather_data_body p <;> rfl
  · intro e he
    unfold get_weather_data
    rw [he]
  · intro hfetch
    simp [get_weather_data, get_weather_data_body, hfetch]
  · intro hq
    unfold get_weather_data_full
    rw [if_pos hq]

/-! ## Claim C8 -/

/-- When the debug write does not raise, `fallback_extraction` resolves
each of the two wind fields by the first success in the chain
already-found value → keyword-element pass → free-text pass. -/
theorem fallback_extraction_fields (p : Page) (d : WeatherData)
    (h : p.debugWriteRaises = false) :
    ∃ r, fallback_extraction p d = .ok r
      ∧ r.wind_speed = (d.wind_speed <|> (p.elemWind <|> extract_from_text .windSpeed p.allText))
      ∧ r.gust_speed = (d.gust_speed <|> (p.elemGust <|> extract_from_text .gust p.allText)) := by
  cases h1 : d.wind_speed <;> cases h2 : d.gust_speed <;>
    cases h3 : p.elemWind <;> cases h4 : p.elemGust <;>
      refine ⟨_, by simp only [fallback_extraction, h]; rfl, ?_, ?_⟩ <;>
        simp [fallback_extraction, h, h1, h2, h3, h4,
          apply_ite WeatherData.wind_speed, apply_ite WeatherData.gust_speed]

/-- Claim C8: the engine-wide fallback pass runs iff `wind_speed` or
`gust_speed` is still unresolved after the direct-targeting
(label-adjacency and value-pattern) strategies: when both resolved, the
result is exactly the direct dictionary (the flat text is never consulted);
when triggered, each field is settled by the first success of
already-found → keyword elements → free text, and inside the free-text
pass the context-qualified regex is attempted before the context-free one,
the first match being accepted. -/
theorem fallback_trigger_and_order :
    (∀ p : Page, p.fetchOk = true → (directPhase p).wind_speed ≠ none →
      (directPhase p).gust_speed ≠ none → get_weather_data p = directPhase p)
  ∧ (∀ p : Page, p.fetchOk = true →
      ((directPhase p).wind_speed = none ∨ (directPhase p).gust_speed = none) →
      get_weather_data_body p = fallback_extraction p (directPhase p))
  ∧ (∀ p : Page, p.fetchOk = true → p.debugWriteRaises = false →
      ((directPhase p).wind_speed = none ∨ (directPhase p).gust_speed = none) →
      (get_weather_data p).wind_speed =
        ((directPhase p).wind_speed <|> (p.elemWind <|> extract_from_text .windSpeed p.allText))
      ∧ (get_weather_data p).gust_speed =
        ((directPhase p).gust_speed <|> (p.elemGust <|> extract_from_text .gust p.allText)))
  ∧ (∀ (lab : LabelPat) (t : String) (num u : List Char),
      searchContext lab t.toList = some (num, u) →
      extract_from_text lab t = some (formatMatch num u))
  ∧ (∀ (lab : LabelPat) (t : String), searchContext lab t.toList = none →
      extract_from_text lab t = (searchNumUnit t.toList).map fun r => formatMatch r.1 r.2) := by
  refine ⟨?_, ?_, ?_, ?_, ?_⟩
  · intro p hf hw hg
    simp [get_weather_data, get_weather_data_body, hf, hw, hg]
  · intro p hf hmiss
    simp only [get_weather_data_body, hf]
    rw [if_neg (by simp : ¬ (true = false)), if_pos hmiss]
  · intro p hf hdb hmiss
    obtain ⟨r, hr, hrw, hrg⟩ := fallback_extraction_fields p (directPhase p) hdb
    have hbody : get_weather_data_body p = Except.ok r := by
      have hstep : get_weather_data_body p = fallback_extraction p (directPhase p) := by
        simp only [get_weather_data_body, hf]
        rw [if_neg (by simp : ¬ (true = false)), if_pos hmiss]
      rw [hstep, hr]
    have hres : get_weather_data p = r := by
      unfold get_weather_data
      rw [hbody]
    rw [hres]
    exact ⟨hrw, hrg⟩
  · intro lab t num u h
    simp only [extract_from_text, h]
  · intro lab t h
    simp only [extract_from_text, h]
    cases hs : searchNumUnit t.toList with
    | none => rfl
    | some r => rfl

end WindyNotifier
